import Mathlib

/-!
Verification of the chat-template cgo bridge
(`pkg/preprocessing/chat_completions/cgo_functions.go`).

The Go file is marshaling glue around a foreign (Python) runtime: it
serializes request structs with `encoding/json`, copies the bytes into a
C string, calls a foreign entry point, copies the result back, frees both
buffers via `defer`, and deserializes the result.  We embed the package
shallowly:

* `Json` is the tagged value tree of the interchange format; the Go
  `interface{}` fields (`Tools`, `Documents`, `ChatTemplateKWArgs` values)
  hold decoded JSON values, so they are represented directly as `Json`.
* Go slices distinguish `nil` from an empty non-nil slice, and
  `encoding/json`'s `omitempty` treats both as empty; slice- and
  map-typed struct fields are therefore embedded as `Option (List _)`
  (`none` = nil).
* The foreign runtime is an oracle (`ForeignRuntime`): for each entry
  point, a function from the serialized request to `none` (the NULL
  sentinel) or `some bytes` (a foreign-allocated C string).
* Each operation returns an outcome record carrying the Go return values,
  the ordered list of boundary events (allocations, foreign calls, frees)
  and the ordered list of log records it emits, so resource and logging
  properties are plain statements about those lists.
* `encoding/json` behaviors that the claims depend on are modelled at the
  byte level: `Unmarshal` scans raw bytes, reports `invalid character …`
  style syntax errors, accepts ill-formed UTF-8 inside string literals by
  substituting U+FFFD (it performs no encoding validation), ignores
  unknown object keys, treats `null` as a no-op for struct/scalar targets,
  and `Marshal` omits `omitempty` fields whose value is empty.
  Numbers are represented as rationals; float64 rounding and the shortest
  float formatting are not modelled (no claim observes them).
-/

namespace Preprocessing

/-- A decoded JSON value.  This is also the embedding of Go's
`interface{}` for the opaque request fields, as produced by
`encoding/json` (null / bool / number / string / array / object). -/
inductive Json where
  | null : Json
  | bool : Bool → Json
  | num : ℚ → Json
  | str : String → Json
  | arr : List Json → Json
  | obj : List (String × Json) → Json

/-! ## UTF-8, modelling Go byte strings

Go strings are raw byte sequences.  We model foreign result buffers as
`List Nat` of byte values and provide the standard UTF-8
encoder/decoder; the decoder mirrors `utf8.DecodeRune` (rejecting
overlong encodings, surrogates and out-of-range code points). -/

/-- Encode one code point to its UTF-8 bytes. -/
def utf8EncodeChar (c : Char) : List Nat :=
  let n := c.toNat
  if n < 0x80 then [n]
  else if n < 0x800 then [0xC0 + n / 0x40, 0x80 + n % 0x40]
  else if n < 0x10000 then
    [0xE0 + n / 0x1000, 0x80 + (n / 0x40) % 0x40, 0x80 + n % 0x40]
  else
    [0xF0 + n / 0x40000, 0x80 + (n / 0x1000) % 0x40, 0x80 + (n / 0x40) % 0x40,
     0x80 + n % 0x40]

/-- The UTF-8 bytes of a string. -/
def utf8Bytes (s : String) : List Nat :=
  s.data.foldr (fun c acc => utf8EncodeChar c ++ acc) []

/-- Byte length of a string, i.e. Go's `len(s)`. -/
def utf8Len (s : String) : Nat := (utf8Bytes s).length

/-- Whether a byte is a UTF-8 continuation byte. -/
def isCont (b : Nat) : Bool := 0x80 ≤ b && b < 0xC0

/-- Decode one rune from a byte list, as `utf8.DecodeRune`: `some (cp, size)`
for a well-formed sequence, `none` for an invalid one (invalid start byte,
truncated sequence, overlong form, surrogate, or value above U+10FFFF). -/
def utf8DecodeRune : List Nat → Option (Nat × Nat)
  | [] => none
  | b :: rest =>
    if b < 0x80 then some (b, 1)
    else if b < 0xC2 then none
    else if b < 0xE0 then
      match rest with
      | b1 :: _ => if isCont b1 then some ((b - 0xC0) * 0x40 + (b1 - 0x80), 2) else none
      | [] => none
    else if b < 0xF0 then
      match rest with
      | b1 :: b2 :: _ =>
        if isCont b1 && isCont b2 then
          let cp := (b - 0xE0) * 0x1000 + (b1 - 0x80) * 0x40 + (b2 - 0x80)
          if cp < 0x800 || (0xD800 ≤ cp && cp < 0xE000) then none else some (cp, 3)
        else none
      | _ => none
    else if b < 0xF5 then
      match rest with
      | b1 :: b2 :: b3 :: _ =>
        if isCont b1 && isCont b2 && isCont b3 then
          let cp := (b - 0xF0) * 0x40000 + (b1 - 0x80) * 0x1000 +
            (b2 - 0x80) * 0x40 + (b3 - 0x80)
          if cp < 0x10000 || 0x110000 ≤ cp then none else some (cp, 4)
        else none
      | _ => none
    else none

/-- Fueled well-formedness scan (the fuel is an upper bound on the number
of runes; it never runs out when called with `length + 1`). -/
def validUtf8Fuel : Nat → List Nat → Bool
  | _, [] => true
  | 0, _ :: _ => false
  | fuel + 1, bs =>
    match utf8DecodeRune bs with
    | none => false
    | some (_, k) => validUtf8Fuel fuel (bs.drop k)

/-- Whether a byte sequence is well-formed UTF-8. -/
def validUtf8Bytes (bs : List Nat) : Bool := validUtf8Fuel (bs.length + 1) bs

/-- Bytes of a C string up to (excluding) the first NUL, as `C.GoString`. -/
def goStringBytes (bs : List Nat) : List Nat := bs.takeWhile (fun b => b ≠ 0)

/-! ## `encoding/json` syntax scan and value decoding (byte level)

`json.Unmarshal` first validates the raw bytes (Go's scanner) and then
decodes.  We fold both phases into one byte-level parser producing a
`Json` tree or the scanner's error message.  Behaviors carried over from
Go that matter for the claims:

* the first offending byte determines the `invalid character …` error,
  so inputs that fail at the same position with the same byte yield the
  same error value regardless of their total length;
* string literals undergo *no* UTF-8 validation: an invalid byte or
  truncated sequence inside a string is decoded as U+FFFD of width 1
  (`utf8.DecodeRune` semantics in Go's `unquote`), and unpaired
  `\uXXXX` surrogates also become U+FFFD;
* unescaped control characters below 0x20 inside a string are syntax
  errors, as are malformed escapes, malformed numbers, and trailing
  data after the top-level value.

Recursion is fueled; callers pass `length + 1`, which can never be
exhausted because every recursive step first consumes at least one
byte. -/

/-- JSON whitespace skip (space, tab, newline, carriage return). -/
def skipWs (bs : List Nat) : List Nat :=
  bs.dropWhile (fun b => b == 32 || b == 9 || b == 10 || b == 13)

/-- Go scanner error for truncated input. -/
def unexpectedEnd : String := "unexpected end of JSON input"

/-- Render a byte the way Go quotes the offending character in scanner
errors (printable ASCII verbatim, otherwise a hex escape). -/
def hexDigit (n : Nat) : Char := if n < 10 then Char.ofNat (48 + n) else Char.ofNat (87 + n)

/-- Quoted form of the offending byte used in scanner error messages. -/
def quoteByte (b : Nat) : String :=
  if 0x20 ≤ b && b < 0x7F then String.mk ['\'', Char.ofNat b, '\'']
  else String.mk ['\'', '\\', 'x', hexDigit (b / 16 % 16), hexDigit (b % 16), '\'']

/-- Go scanner error text: `invalid character 'c' <context>`. -/
def invalidChar (b : Nat) (ctx : String) : String :=
  "invalid character " ++ quoteByte b ++ " " ++ ctx

/-- Match the tail of a literal (`null`, `true`, `false`) byte by byte. -/
def parseLit (word : List Nat) (kind : String) (bs : List Nat) :
    Except String (List Nat) :=
  match word, bs with
  | [], rest => .ok rest
  | _ :: _, [] => .error unexpectedEnd
  | w :: ws, b :: rest =>
    if b = w then parseLit ws kind rest
    else .error (invalidChar b ("in literal " ++ kind))

/-- Whether a byte is an ASCII digit. -/
def isDigit (b : Nat) : Bool := 48 ≤ b && b ≤ 57

/-- Numeric value of a digit run, most significant first. -/
def digitsVal : List Nat → Nat → Nat
  | [], acc => acc
  | d :: ds, acc => digitsVal ds (acc * 10 + (d - 48))

/-- Split a leading digit run off a byte list. -/
def takeDigits (bs : List Nat) : List Nat × List Nat :=
  (bs.takeWhile isDigit, bs.dropWhile isDigit)

/-- Parse an optional fraction part (after the integer part); returns the
fraction digits (empty if absent) and the rest. -/
def parseFrac (bs : List Nat) : Except String (List Nat × List Nat) :=
  match bs with
  | 46 :: r2 =>
    match r2.takeWhile isDigit, r2 with
    | [], [] => .error unexpectedEnd
    | [], c :: _ => .error (invalidChar c "after decimal point in numeric literal")
    | fd, _ => .ok (fd, r2.dropWhile isDigit)
  | _ => .ok ([], bs)

/-- Parse an optional exponent part; returns (negative?, exponent value)
and the rest. -/
def parseExp (bs : List Nat) : Except String ((Bool × Nat) × List Nat) :=
  match bs with
  | b :: r2 =>
    if b = 101 ∨ b = 69 then
      let (en, r3) : Bool × List Nat :=
        match r2 with
        | 43 :: t => (false, t)
        | 45 :: t => (true, t)
        | _ => (false, r2)
      match r3.takeWhile isDigit, r3 with
      | [], [] => .error unexpectedEnd
      | [], c :: _ => .error (invalidChar c "in exponent of numeric literal")
      | ed, _ => .ok ((en, digitsVal ed 0), r3.dropWhile isDigit)
    else .ok ((false, 0), bs)
  | [] => .ok ((false, 0), [])

/-- Assemble a rational from sign, integer part, fraction digits and
exponent: the literal denotes `mant * 10 ^ e` for the signed digit
string `mant` and decimal exponent `e`.  (Go stores float64; rounding
is not modelled, and no claim observes a non-integer value.) -/
def mkNum (neg : Bool) (ip : Nat) (fd : List Nat) (en : Bool) (ev : Nat) : ℚ :=
  let mag : Nat := digitsVal fd ip
  let mant : Int := if neg then -(mag : Int) else (mag : Int)
  let e : Int := (if en then -(ev : Int) else (ev : Int)) - (fd.length : Int)
  if 0 ≤ e then ((mant * 10 ^ e.toNat : Int) : ℚ)
  else mkRat mant (10 ^ (-e).toNat)

/-- Parse a JSON number (Go grammar: a leading zero ends the integer
part, so `01` leaves `1` as trailing input for the caller's context
error, exactly as Go's scanner reports it). -/
def parseNumber (bs : List Nat) : Except String (ℚ × List Nat) :=
  let (neg, bs1) : Bool × List Nat :=
    match bs with
    | 45 :: rest => (true, rest)
    | _ => (false, bs)
  match bs1 with
  | [] => .error unexpectedEnd
  | b :: rest1 =>
    if isDigit b then
      let (ip, r1) : List Nat × List Nat :=
        if b = 48 then ([b], rest1) else takeDigits bs1
      match parseFrac r1 with
      | .error e => .error e
      | .ok (fd, r2) =>
        match parseExp r2 with
        | .error e => .error e
        | .ok ((en, ev), r3) => .ok (mkNum neg (digitsVal ip 0) fd en ev, r3)
    else .error (invalidChar b "in numeric literal")

/-- Value of a hex digit byte, if any (Go's `getu4` accepts both cases). -/
def hexVal (b : Nat) : Option Nat :=
  if 48 ≤ b && b ≤ 57 then some (b - 48)
  else if 97 ≤ b && b ≤ 102 then some (b - 87)
  else if 65 ≤ b && b ≤ 70 then some (b - 55)
  else none

/-- Read four hex digits of a `\uXXXX` escape. -/
def getu4 : List Nat → Option (Nat × List Nat)
  | a :: b :: c :: d :: rest => do
    let x ← hexVal a
    let y ← hexVal b
    let z ← hexVal c
    let w ← hexVal d
    pure (((x * 16 + y) * 16 + z) * 16 + w, rest)
  | _ => none

/-- Decode a string literal body (after the opening quote), mirroring
Go's scanner for syntax errors and Go's `unquote` for the value:
invalid UTF-8 becomes U+FFFD (width 1), unpaired surrogates become
U+FFFD, a valid surrogate pair combines. -/
def parseStringBody : Nat → List Nat → List Char → Except String (String × List Nat)
  | 0, _, _ => .error unexpectedEnd
  | _ + 1, [], _ => .error unexpectedEnd
  | fuel + 1, b :: rest, acc =>
    if b = 34 then .ok (String.mk acc.reverse, rest)
    else if b = 92 then
      match rest with
      | [] => .error unexpectedEnd
      | e :: r2 =>
        if e = 34 then parseStringBody fuel r2 ('"' :: acc)
        else if e = 92 then parseStringBody fuel r2 ('\\' :: acc)
        else if e = 47 then parseStringBody fuel r2 ('/' :: acc)
        else if e = 98 then parseStringBody fuel r2 (Char.ofNat 8 :: acc)
        else if e = 102 then parseStringBody fuel r2 (Char.ofNat 12 :: acc)
        else if e = 110 then parseStringBody fuel r2 ('\n' :: acc)
        else if e = 114 then parseStringBody fuel r2 ('\r' :: acc)
        else if e = 116 then parseStringBody fuel r2 ('\t' :: acc)
        else if e = 117 then
          match getu4 r2 with
          | none => .error "invalid character in \\u hexadecimal character escape"
          | some (cp, r3) =>
            if 0xD800 ≤ cp ∧ cp < 0xDC00 then
              match r3 with
              | 92 :: 117 :: r4 =>
                match getu4 r4 with
                | some (cp2, r5) =>
                  if 0xDC00 ≤ cp2 ∧ cp2 < 0xE000 then
                    parseStringBody fuel r5
                      (Char.ofNat (0x10000 + (cp - 0xD800) * 0x400 + (cp2 - 0xDC00)) :: acc)
                  else parseStringBody fuel r3 (Char.ofNat 0xFFFD :: acc)
                | none => parseStringBody fuel r3 (Char.ofNat 0xFFFD :: acc)
              | _ => parseStringBody fuel r3 (Char.ofNat 0xFFFD :: acc)
            else if 0xDC00 ≤ cp ∧ cp < 0xE000 then
              parseStringBody fuel r3 (Char.ofNat 0xFFFD :: acc)
            else parseStringBody fuel r3 (Char.ofNat cp :: acc)
        else .error (invalidChar e "in string escape code")
    else if b < 0x20 then .error (invalidChar b "in string literal")
    else if b < 0x80 then parseStringBody fuel rest (Char.ofNat b :: acc)
    else
      match utf8DecodeRune (b :: rest) with
      | some (cp, k) => parseStringBody fuel ((b :: rest).drop k) (Char.ofNat cp :: acc)
      | none => parseStringBody fuel rest (Char.ofNat 0xFFFD :: acc)

mutual

/-- Parse one JSON value. -/
def parseVal : Nat → List Nat → Except String (Json × List Nat)
  | 0, _ => .error unexpectedEnd
  | fuel + 1, bs =>
    match skipWs bs with
    | [] => .error unexpectedEnd
    | b :: rest =>
      if b = 110 then (parseLit [117, 108, 108] "null" rest).map (fun r => (Json.null, r))
      else if b = 116 then (parseLit [114, 117, 101] "true" rest).map (fun r => (Json.bool true, r))
      else if b = 102 then (parseLit [97, 108, 115, 101] "false" rest).map (fun r => (Json.bool false, r))
      else if b = 34 then (parseStringBody (rest.length + 1) rest []).map (fun p => (Json.str p.1, p.2))
      else if b = 91 then
        match skipWs rest with
        | 93 :: r2 => .ok (Json.arr [], r2)
        | bs2 => parseArrLoop fuel bs2 []
      else if b = 123 then
        match skipWs rest with
        | 125 :: r2 => .ok (Json.obj [], r2)
        | bs2 => parseObjLoop fuel bs2 []
      else if b = 45 ∨ isDigit b then (parseNumber (b :: rest)).map (fun p => (Json.num p.1, p.2))
      else .error (invalidChar b "looking for beginning of value")

/-- Parse array elements after `[` (first element pending). -/
def parseArrLoop : Nat → List Nat → List Json → Except String (Json × List Nat)
  | 0, _, _ => .error unexpectedEnd
  | fuel + 1, bs, acc =>
    match parseVal fuel bs with
    | .error e => .error e
    | .ok (v, r1) =>
      match skipWs r1 with
      | 44 :: r2 => parseArrLoop fuel r2 (v :: acc)
      | 93 :: r2 => .ok (Json.arr (v :: acc).reverse, r2)
      | [] => .error unexpectedEnd
      | c :: _ => .error (invalidChar c "after array element")

/-- Parse object members after `{` (first key pending). -/
def parseObjLoop : Nat → List Nat → List (String × Json) → Except String (Json × List Nat)
  | 0, _, _ => .error unexpectedEnd
  | fuel + 1, bs, acc =>
    match skipWs bs with
    | [] => .error unexpectedEnd
    | 34 :: r1 =>
      match parseStringBody (r1.length + 1) r1 [] with
      | .error e => .error e
      | .ok (k, r2) =>
        match skipWs r2 with
        | 58 :: r3 =>
          match parseVal fuel r3 with
          | .error e => .error e
          | .ok (v, r4) =>
            match skipWs r4 with
            | 44 :: r5 => parseObjLoop fuel r5 ((k, v) :: acc)
            | 125 :: r5 => .ok (Json.obj ((k, v) :: acc).reverse, r5)
            | [] => .error unexpectedEnd
            | c :: _ => .error (invalidChar c "after object key:value pair")
        | [] => .error unexpectedEnd
        | c :: _ => .error (invalidChar c "after object key")
    | c :: _ => .error (invalidChar c "looking for beginning of object key string")

end

/-- The syntax phase of `json.Unmarshal`: parse a complete JSON document
from raw bytes (a Go string's bytes), rejecting trailing data. -/
def goJsonParse (bs : List Nat) : Except String Json :=
  match skipWs bs with
  | [] => .error unexpectedEnd
  | bs1 =>
    match parseVal (bs1.length + 1) bs1 with
    | .error e => .error e
    | .ok (v, rest) =>
      match skipWs rest with
      | [] => .ok v
      | c :: _ => .error (invalidChar c "after top-level value")

/-! ## `encoding/json` serialization (`json.Marshal`)

Marshal cannot fail on the request structs (every representable field
value is serializable), matching the fact that the `err != nil` branch
after `json.Marshal` is dead for these types.  Escaping mirrors Go:
`"`/`\` and the named control escapes, `\u00XX` for other control
characters, and Go's default HTML escaping of `<`, `>`, `&`, U+2028,
U+2029. -/

/-- Go JSON escaping of a single character. -/
def escapeJsonChar (c : Char) : List Char :=
  if c = '"' then ['\\', '"']
  else if c = '\\' then ['\\', '\\']
  else if c = '\n' then ['\\', 'n']
  else if c = '\r' then ['\\', 'r']
  else if c = '\t' then ['\\', 't']
  else if c.toNat < 0x20 then ['\\', 'u', '0', '0', hexDigit (c.toNat / 16), hexDigit (c.toNat % 16)]
  else if c = '<' then ['\\', 'u', '0', '0', '3', 'c']
  else if c = '>' then ['\\', 'u', '0', '0', '3', 'e']
  else if c = '&' then ['\\', 'u', '0', '0', '2', '6']
  else if c.toNat = 0x2028 then ['\\', 'u', '2', '0', '2', '8']
  else if c.toNat = 0x2029 then ['\\', 'u', '2', '0', '2', '9']
  else [c]

/-- A JSON string literal as Go emits it. -/
def quoteJsonString (s : String) : String :=
  "\"" ++ String.mk (s.data.foldr (fun c acc => escapeJsonChar c ++ acc) []) ++ "\""

/-- Serialized form of a number (integers exactly; Go's shortest float64
formatting for non-integers is not modelled, no claim observes it). -/
def serializeNum (q : ℚ) : String :=
  if q.den = 1 then toString q.num else toString q

mutual

/-- Compact JSON text of a value, as `json.Marshal` emits it. -/
def serializeJson : Json → String
  | .null => "null"
  | .bool true => "true"
  | .bool false => "false"
  | .num q => serializeNum q
  | .str s => quoteJsonString s
  | .arr xs => "[" ++ serializeJsonItems xs ++ "]"
  | .obj kvs => "\x7b" ++ serializeJsonFields kvs ++ "\x7d"

/-- Comma-separated array items. -/
def serializeJsonItems : List Json → String
  | [] => ""
  | [x] => serializeJson x
  | x :: y :: xs => serializeJson x ++ "," ++ serializeJsonItems (y :: xs)

/-- Comma-separated object members. -/
def serializeJsonFields : List (String × Json) → String
  | [] => ""
  | [(k, v)] => quoteJsonString k ++ ":" ++ serializeJson v
  | (k, v) :: y :: xs => quoteJsonString k ++ ":" ++ serializeJson v ++ "," ++ serializeJsonFields (y :: xs)

end

/-! ## Data model (the Go structs) -/

/-- `ChatMessage`: a single message in a conversation. -/
structure ChatMessage where
  role : String
  content : String
deriving DecidableEq, Repr

/-- `RenderJinjaTemplateRequest`.  `Option (List _)` embeds Go's
nil/non-nil slice (and map) distinction: `none` is a nil slice, `some []`
an allocated empty one.  The opaque `interface{}` elements are `Json`
values, and `ChatTemplateKWArgs` (a `map[string]interface{}`) is an
association list; a Go map value has pairwise distinct keys and no
observable order. -/
structure RenderJinjaTemplateRequest where
  conversations : Option (List ChatMessage)
  tools : Option (List Json)
  documents : Option (List Json)
  chatTemplate : String
  returnAssistantTokensMask : Bool
  continueFinalMessage : Bool
  addGenerationPrompt : Bool
  chatTemplateKWArgs : Option (List (String × Json))

/-- `RenderJinjaTemplateResponse` (`rendered_chats`, `generation_indices`).
The outer slices keep the nil/non-nil distinction (`generation_indices`
absent ⇒ `none`); at the inner nesting levels a JSON `null` decodes to an
empty list (Go produces a nil inner slice there — the inner nil/empty
distinction is not observed by any claim). -/
structure RenderJinjaTemplateResponse where
  renderedChats : Option (List String)
  generationIndices : Option (List (List (List Int)))
deriving DecidableEq, Repr

/-- `FetchChatTemplateRequest`.  `token` is the secret-bearing field. -/
structure FetchChatTemplateRequest where
  model : String
  chatTemplate : String
  tools : Option (List Json)
  revision : String
  token : String
  isLocalPath : Bool

/-- `FetchChatTemplateResponse`. -/
structure FetchChatTemplateResponse where
  chatTemplate : String
  chatTemplateKWArgs : Option (List (String × Json))

/-! ## Marshal of the request structs (struct tags and `omitempty`) -/

/-- Marshal one `ChatMessage` (`role`, `content`, no omitempty). -/
def marshalChatMessage (m : ChatMessage) : Json :=
  .obj [("role", .str m.role), ("content", .str m.content)]

/-- Marshal a `RenderJinjaTemplateRequest`: `messages` always present
(`null` for a nil slice); every other field has `omitempty`, so empty
slices/maps (nil or length 0), the empty string and `false` are omitted. -/
def marshalRenderRequest (r : RenderJinjaTemplateRequest) : Json :=
  .obj (
    [("messages",
      match r.conversations with
      | none => Json.null
      | some ms => Json.arr (ms.map marshalChatMessage))]
    ++ (match r.tools with
      | some (t :: ts) => [("tools", Json.arr (t :: ts))]
      | _ => [])
    ++ (match r.documents with
      | some (d :: ds) => [("documents", Json.arr (d :: ds))]
      | _ => [])
    ++ (if r.chatTemplate = "" then [] else [("chat_template", Json.str r.chatTemplate)])
    ++ (if r.returnAssistantTokensMask then [("return_assistant_tokens_mask", Json.bool true)] else [])
    ++ (if r.continueFinalMessage then [("continue_final_message", Json.bool true)] else [])
    ++ (if r.addGenerationPrompt then [("add_generation_prompt", Json.bool true)] else [])
    ++ (match r.chatTemplateKWArgs with
      | some (kv :: kvs) => [("chat_template_kwargs", Json.obj (kv :: kvs))]
      | _ => []))

/-- Marshal a `FetchChatTemplateRequest`: `model` always present, all
other fields `omitempty`. -/
def marshalFetchRequest (r : FetchChatTemplateRequest) : Json :=
  .obj (
    [("model", Json.str r.model)]
    ++ (if r.chatTemplate = "" then [] else [("chat_template", Json.str r.chatTemplate)])
    ++ (match r.tools with
      | some (t :: ts) => [("tools", Json.arr (t :: ts))]
      | _ => [])
    ++ (if r.revision = "" then [] else [("revision", Json.str r.revision)])
    ++ (if r.token = "" then [] else [("token", Json.str r.token)])
    ++ (if r.isLocalPath then [("is_local_path", Json.bool true)] else []))

/-! ## Unmarshal into the Go structs

Go field decoding: unknown keys are ignored, duplicate keys are applied
in order (last wins), `null` is a no-op for string/bool/int targets and
sets slices, maps and interfaces to nil, and a type mismatch is an
error.  `Unmarshal` records the first error; a fold in the `Except`
monad returns exactly that first error. -/

/-- Decode into a Go `string` target. -/
def decodeGoString : Json → Except String String
  | .str s => .ok s
  | .null => .ok ""
  | _ => .error "json: cannot unmarshal value into Go value of type string"

/-- Decode into a Go `bool` target. -/
def decodeGoBool : Json → Except String Bool
  | .bool b => .ok b
  | .null => .ok false
  | _ => .error "json: cannot unmarshal value into Go value of type bool"

/-- Decode into a Go `int` target (must be an integral number). -/
def decodeGoInt : Json → Except String Int
  | .num q => if q.den = 1 then .ok q.num else .error "json: cannot unmarshal number into Go value of type int"
  | .null => .ok 0
  | _ => .error "json: cannot unmarshal value into Go value of type int"

/-- Element-wise decoding of a JSON array, stopping at the first error
(the error `Unmarshal` reports). -/
def exceptMapList {α β : Type} (f : α → Except String β) : List α → Except String (List β)
  | [] => .ok []
  | x :: xs =>
    match f x with
    | .error e => .error e
    | .ok y => (exceptMapList f xs).map (fun ys => y :: ys)

/-- Decode into a Go `interface{}` target: any JSON value is accepted
verbatim (`null` gives a nil interface, i.e. `Json.null`). -/
def decodeOpaque (j : Json) : Except String Json := .ok j

/-- Decode into an outer Go slice target (`null` ⇒ nil). -/
def decodeGoSlice {α : Type} (f : Json → Except String α) : Json → Except String (Option (List α))
  | .null => .ok none
  | .arr xs => (exceptMapList f xs).map some
  | _ => .error "json: cannot unmarshal value into Go slice"

/-- Decode into an inner Go slice target (`null` ⇒ nil, represented as
the empty list). -/
def decodeGoSliceD {α : Type} (f : Json → Except String α) : Json → Except String (List α)
  | .null => .ok []
  | .arr xs => exceptMapList f xs
  | _ => .error "json: cannot unmarshal value into Go slice"

/-- Decode into a Go `map[string]interface{}` target (`null` ⇒ nil map;
`interface{}` values are the `Json` elements themselves). -/
def decodeGoKWArgs : Json → Except String (Option (List (String × Json)))
  | .null => .ok none
  | .obj kvs => .ok (some kvs)
  | _ => .error "json: cannot unmarshal value into Go value of type map[string]interface \x7b\x7d"

/-- Decode one `ChatMessage`. -/
def decodeChatMessage (j : Json) : Except String ChatMessage :=
  match j with
  | .null => .ok ⟨"", ""⟩
  | .obj kvs =>
    kvs.foldlM (fun acc kv =>
      if kv.1 = "role" then (decodeGoString kv.2).map (fun v => { acc with role := v })
      else if kv.1 = "content" then (decodeGoString kv.2).map (fun v => { acc with content := v })
      else .ok acc) (⟨"", ""⟩ : ChatMessage)
  | _ => .error "json: cannot unmarshal value into Go value of type ChatMessage"

/-- The zero `RenderJinjaTemplateRequest`. -/
def zeroRenderRequest : RenderJinjaTemplateRequest :=
  ⟨none, none, none, "", false, false, false, none⟩

/-- Apply one JSON object member to a request being decoded. -/
def applyRenderRequestField (acc : RenderJinjaTemplateRequest) (kv : String × Json) :
    Except String RenderJinjaTemplateRequest :=
  if kv.1 = "messages" then
    (decodeGoSlice decodeChatMessage kv.2).map (fun v => { acc with conversations := v })
  else if kv.1 = "tools" then
    (decodeGoSlice decodeOpaque kv.2).map (fun v => { acc with tools := v })
  else if kv.1 = "documents" then
    (decodeGoSlice decodeOpaque kv.2).map (fun v => { acc with documents := v })
  else if kv.1 = "chat_template" then
    (decodeGoString kv.2).map (fun v => { acc with chatTemplate := v })
  else if kv.1 = "return_assistant_tokens_mask" then
    (decodeGoBool kv.2).map (fun v => { acc with returnAssistantTokensMask := v })
  else if kv.1 = "continue_final_message" then
    (decodeGoBool kv.2).map (fun v => { acc with continueFinalMessage := v })
  else if kv.1 = "add_generation_prompt" then
    (decodeGoBool kv.2).map (fun v => { acc with addGenerationPrompt := v })
  else if kv.1 = "chat_template_kwargs" then
    (decodeGoKWArgs kv.2).map (fun v => { acc with chatTemplateKWArgs := v })
  else .ok acc

/-- Unmarshal a JSON tree into a `RenderJinjaTemplateRequest`. -/
def unmarshalRenderRequest : Json → Except String RenderJinjaTemplateRequest
  | .null => .ok zeroRenderRequest
  | .obj kvs => kvs.foldlM applyRenderRequestField zeroRenderRequest
  | _ => .error "json: cannot unmarshal value into Go value of type RenderJinjaTemplateRequest"

/-- The zero `RenderJinjaTemplateResponse`. -/
def zeroRenderResponse : RenderJinjaTemplateResponse := ⟨none, none⟩

/-- Apply one JSON object member to a response being decoded. -/
def applyRenderResponseField (acc : RenderJinjaTemplateResponse) (kv : String × Json) :
    Except String RenderJinjaTemplateResponse :=
  if kv.1 = "rendered_chats" then
    (decodeGoSlice decodeGoString kv.2).map (fun v => { acc with renderedChats := v })
  else if kv.1 = "generation_indices" then
    (decodeGoSlice (decodeGoSliceD (decodeGoSliceD decodeGoInt)) kv.2).map
      (fun v => { acc with generationIndices := v })
  else .ok acc

/-- Unmarshal a JSON tree into a `RenderJinjaTemplateResponse`. -/
def unmarshalRenderResponse : Json → Except String RenderJinjaTemplateResponse
  | .null => .ok zeroRenderResponse
  | .obj kvs => kvs.foldlM applyRenderResponseField zeroRenderResponse
  | _ => .error "json: cannot unmarshal value into Go value of type RenderJinjaTemplateResponse"

/-- The zero `FetchChatTemplateResponse`. -/
def zeroFetchResponse : FetchChatTemplateResponse := ⟨"", none⟩

/-- Apply one JSON object member to a fetch response being decoded. -/
def applyFetchResponseField (acc : FetchChatTemplateResponse) (kv : String × Json) :
    Except String FetchChatTemplateResponse :=
  if kv.1 = "chat_template" then
    (decodeGoString kv.2).map (fun v => { acc with chatTemplate := v })
  else if kv.1 = "chat_template_kwargs" then
    (decodeGoKWArgs kv.2).map (fun v => { acc with chatTemplateKWArgs := v })
  else .ok acc

/-- Unmarshal a JSON tree into a `FetchChatTemplateResponse`. -/
def unmarshalFetchResponse : Json → Except String FetchChatTemplateResponse
  | .null => .ok zeroFetchResponse
  | .obj kvs => kvs.foldlM applyFetchResponseField zeroFetchResponse
  | _ => .error "json: cannot unmarshal value into Go value of type FetchChatTemplateResponse"

/-- `json.Unmarshal` of raw result bytes into a render response. -/
def decodeRenderResponseBytes (bs : List Nat) : Except String RenderJinjaTemplateResponse :=
  (goJsonParse bs).bind unmarshalRenderResponse

/-- `json.Unmarshal` of raw result bytes into a fetch response. -/
def decodeFetchResponseBytes (bs : List Nat) : Except String FetchChatTemplateResponse :=
  (goJsonParse bs).bind unmarshalFetchResponse

/-- `DeepCopy`: the source full `json.Marshal` / `json.Unmarshal`
round-trip of a `RenderJinjaTemplateRequest`.  The textual layer
(printing the marshal tree and re-scanning it) is the identity on
marshal images and is folded away here; the tree-level composition is
exactly what determines the resulting value. -/
def DeepCopy (r : RenderJinjaTemplateRequest) : Except String RenderJinjaTemplateRequest :=
  unmarshalRenderRequest (marshalRenderRequest r)

/-! ## The foreign boundary and observable effects

The cgo entry points are an oracle: per operation, a function from the
serialized request text to either `none` (the C NULL sentinel) or
`some bytes` (the contents of the foreign-allocated C string).  Each Go
function is embedded as a pure function returning an outcome record
with its Go results, the ordered boundary events (buffer allocations,
foreign calls, frees — `defer`s run last-registered-first at return),
and the ordered log records written through the `traceLogger`. -/

/-- The foreign (Python) runtime the cgo calls cross into. -/
structure ForeignRuntime where
  renderResult : String → Option (List Nat)
  fetchResult : String → Option (List Nat)
  clearResult : Option (List Nat)
  moduleInitStatus : Int

/-- A snapshot of `runtime.MemStats` as read by `printMemStats`. -/
structure MemStats where
  alloc : Nat
  totalAlloc : Nat
  sys : Nat
  numGC : Nat
deriving DecidableEq, Repr

/-- Logger verbosity (`logging.DEBUG` / `logging.TRACE`). -/
inductive LogLevel where
  | debug
  | trace
deriving DecidableEq, Repr

/-- One record written through the logger: `info` for `.Info`, `fail`
for `.Error` (whose optional cause is the message of the error value
passed to it). -/
inductive LogEntry where
  | info (level : LogLevel) (name msg : String) (kvs : List (String × Nat))
  | fail (level : LogLevel) (name msg : String) (cause : Option String)
deriving DecidableEq, Repr

/-- The key/value pairs `printMemStats` logs. -/
def memKVs (m : MemStats) : List (String × Nat) :=
  [("Alloc", m.alloc), ("TotalAlloc", m.totalAlloc), ("Sys", m.sys), ("NumGC", m.numGC)]

/-- `printMemStats`: one TRACE record named `MemoryStats`. -/
def printMemStats (label : String) (m : MemStats) : LogEntry :=
  .info .trace "MemoryStats" label (memKVs m)

/-- One observable crossing of (or bookkeeping at) the cgo boundary. -/
inductive BoundaryEvent where
  | allocHostBuffer (bytes : Nat)
  | callRenderJinjaTemplate
  | callGetModelChatTemplate
  | callClearCaches
  | callInitializeGo
  | callInitChatTemplateModule
  | callCleanupChatTemplateModule
  | callFinalizeGo
  | recvForeignBuffer (bytes : Nat)
  | freeForeignBuffer
  | freeHostBuffer
deriving DecidableEq, Repr

/-- The error values the package constructs via `fmt.Errorf`, keyed by
their distinct messages.  (`json.Marshal` of the request structs cannot
fail, so the `failed to marshal request` branches are dead and have no
constructor.) -/
inductive GoError where
  | nilRequest
  | renderForeignFailed
  | fetchForeignFailed
  | unmarshalResponseFailed (cause : String)
  | moduleInitFailed
  | clearCachesFailed
deriving DecidableEq, Repr

/-- The Go error message of an error value. -/
def GoError.message : GoError → String
  | .nilRequest => "received nil request"
  | .renderForeignFailed => "python render_jinja_template failed"
  | .fetchForeignFailed => "python get_model_chat_template failed"
  | .unmarshalResponseFailed c => "failed to unmarshal response: " ++ c
  | .moduleInitFailed => "failed to initialize chat template module"
  | .clearCachesFailed => "failed to clear caches"

/-- `ChatTemplatingProcessor`: the receiver is an empty struct — it
carries no lifecycle state, no readiness flag, nothing. -/
structure ChatTemplatingProcessor where

/-- Result of `RenderChatTemplate`: the Go pair `(resp, err)` plus the
boundary events and log records of the call. -/
structure RenderOutcome where
  response : Option RenderJinjaTemplateResponse
  err : Option GoError
  events : List BoundaryEvent
  logs : List LogEntry
deriving DecidableEq, Repr

/-- Result of `FetchChatTemplate`: the Go triple plus events and logs. -/
structure FetchOutcome where
  template : String
  kwargs : Option (List (String × Json))
  err : Option GoError
  events : List BoundaryEvent
  logs : List LogEntry

/-- Result of `Initialize` / `ClearCaches`: error plus events and logs. -/
structure UnitOutcome where
  err : Option GoError
  events : List BoundaryEvent
  logs : List LogEntry
deriving DecidableEq, Repr

deriving instance DecidableEq for Except

/-- `RenderChatTemplate` (the `traceLogger` variant of the source): nil
check, marshal, `C.CString` with a deferred `C.free`, foreign render
call (NULL ⇒ error), deferred `C.free` of the result, `C.GoString`, and
`json.Unmarshal`.  `memBefore`/`memAfter` are the two `runtime.MemStats`
snapshots the call would read. -/
def RenderChatTemplate (_w : ChatTemplatingProcessor) (rt : ForeignRuntime)
    (memBefore memAfter : MemStats) (req : Option RenderJinjaTemplateRequest) :
    RenderOutcome :=
  let callLog := LogEntry.info .debug "RenderChatTemplate" "RenderChatTemplate called" []
  let memLog := printMemStats "Before RenderChatTemplate" memBefore
  match req with
  | none =>
    { response := none, err := some .nilRequest, events := [],
      logs := [callLog, memLog, .fail .debug "RenderChatTemplate" "Received nil request" none] }
  | some r =>
    let reqJSON := serializeJson (marshalRenderRequest r)
    let n := utf8Len reqJSON
    let allocLog := LogEntry.info .debug "RenderChatTemplate" "Allocated C string for request" [("bytes", n)]
    let freeReqLog := LogEntry.info .debug "RenderChatTemplate" "Freed C string for request" []
    let freeResLog := LogEntry.info .debug "RenderChatTemplate" "Freed C string result from Python" []
    match rt.renderResult reqJSON with
    | none =>
      { response := none, err := some .renderForeignFailed,
        events := [.allocHostBuffer n, .callRenderJinjaTemplate, .freeHostBuffer],
        logs := [callLog, memLog, allocLog,
                 .fail .debug "RenderChatTemplate" "C function returned nil" none, freeReqLog] }
    | some buf =>
      let resultBytes := goStringBytes buf
      let recvLog := LogEntry.info .debug "RenderChatTemplate" "Received JSON from Python"
        [("length", resultBytes.length)]
      match decodeRenderResponseBytes resultBytes with
      | .error e =>
        { response := none, err := some (.unmarshalResponseFailed e),
          events := [.allocHostBuffer n, .callRenderJinjaTemplate, .recvForeignBuffer buf.length,
                     .freeForeignBuffer, .freeHostBuffer],
          logs := [callLog, memLog, allocLog, recvLog,
                   .fail .debug "RenderChatTemplate" "Failed to unmarshal response" (some e),
                   freeResLog, freeReqLog] }
      | .ok resp =>
        { response := some resp, err := none,
          events := [.allocHostBuffer n, .callRenderJinjaTemplate, .recvForeignBuffer buf.length,
                     .freeForeignBuffer, .freeHostBuffer],
          logs := [callLog, memLog, allocLog, recvLog,
                   printMemStats "After RenderChatTemplate" memAfter, freeResLog, freeReqLog] }

/-- `FetchChatTemplate`: same shape as render against the
`Py_CallGetModelChatTemplate` entry point; the request is passed by
value (no nil check). -/
def FetchChatTemplate (_w : ChatTemplatingProcessor) (rt : ForeignRuntime)
    (memBefore memAfter : MemStats) (req : FetchChatTemplateRequest) : FetchOutcome :=
  let callLog := LogEntry.info .debug "FetchChatTemplate" "FetchChatTemplate called" []
  let memLog := printMemStats "Before FetchChatTemplate" memBefore
  let reqJSON := serializeJson (marshalFetchRequest req)
  let n := utf8Len reqJSON
  let allocLog := LogEntry.info .debug "FetchChatTemplate" "Allocated C string for request" [("bytes", n)]
  let freeReqLog := LogEntry.info .debug "FetchChatTemplate" "Freed C string for request" []
  let freeResLog := LogEntry.info .debug "FetchChatTemplate" "Freed C string result from Python" []
  match rt.fetchResult reqJSON with
  | none =>
    { template := "", kwargs := none, err := some .fetchForeignFailed,
      events := [.allocHostBuffer n, .callGetModelChatTemplate, .freeHostBuffer],
      logs := [callLog, memLog, allocLog,
               .fail .debug "FetchChatTemplate" "C function returned nil" none, freeReqLog] }
  | some buf =>
    let resultBytes := goStringBytes buf
    let recvLog := LogEntry.info .debug "FetchChatTemplate" "Received JSON from Python"
      [("length", resultBytes.length)]
    match decodeFetchResponseBytes resultBytes with
    | .error e =>
      { template := "", kwargs := none, err := some (.unmarshalResponseFailed e),
        events := [.allocHostBuffer n, .callGetModelChatTemplate, .recvForeignBuffer buf.length,
                   .freeForeignBuffer, .freeHostBuffer],
        logs := [callLog, memLog, allocLog, recvLog,
                 .fail .debug "FetchChatTemplate" "Failed to unmarshal response" (some e),
                 freeResLog, freeReqLog] }
    | .ok resp =>
      { template := resp.chatTemplate, kwargs := resp.chatTemplateKWArgs, err := none,
        events := [.allocHostBuffer n, .callGetModelChatTemplate, .recvForeignBuffer buf.length,
                   .freeForeignBuffer, .freeHostBuffer],
        logs := [callLog, memLog, allocLog, recvLog,
                 printMemStats "After FetchChatTemplate" memAfter, freeResLog, freeReqLog] }

/-- `ClearCaches`: foreign cache-clear entry point; NULL ⇒ error, a
non-NULL sentinel buffer is freed (its contents are never read). -/
def ClearCaches (rt : ForeignRuntime) (memBefore memAfter : MemStats) : UnitOutcome :=
  let callLog := LogEntry.info .trace "ClearCaches" "ClearCaches called" []
  let memLog := printMemStats "Before ClearCaches" memBefore
  match rt.clearResult with
  | none =>
    { err := some .clearCachesFailed, events := [.callClearCaches],
      logs := [callLog, memLog, .fail .trace "ClearCaches" "Failed to clear caches" none] }
  | some buf =>
    { err := none,
      events := [.callClearCaches, .recvForeignBuffer buf.length, .freeForeignBuffer],
      logs := [callLog, memLog, printMemStats "After ClearCaches" memAfter,
               .info .trace "ClearCaches" "Caches cleared successfully" []] }

/-- `Initialize`: starts the interpreter (`Py_InitializeGo`), then
initializes the module (`Py_InitChatTemplateModule`); a non-zero module
status fails the call *after* the interpreter was started, and no stop
call is made. -/
def Initialize (_w : ChatTemplatingProcessor) (rt : ForeignRuntime)
    (memBefore memAfter : MemStats) : UnitOutcome :=
  let l1 := LogEntry.info .debug "Initialize" "Initializing Python interpreter" []
  let memLog := printMemStats "Before Python Initialize" memBefore
  if rt.moduleInitStatus ≠ 0 then
    { err := some .moduleInitFailed,
      events := [.callInitializeGo, .callInitChatTemplateModule],
      logs := [l1, memLog,
               .fail .debug "Initialize" "Failed to initialize chat template module" none] }
  else
    { err := none, events := [.callInitializeGo, .callInitChatTemplateModule],
      logs := [l1, memLog, printMemStats "After Python Initialize" memAfter,
               .info .debug "Initialize" "Python interpreter initialized successfully" []] }

/-- `Finalize`: tears down the module's cached state, then stops the
interpreter; it cannot fail. -/
def Finalize (_w : ChatTemplatingProcessor) (memBefore memAfter : MemStats) : UnitOutcome :=
  { err := none,
    events := [.callCleanupChatTemplateModule, .callFinalizeGo],
    logs := [.info .debug "Finalize" "Finalizing Python interpreter" [],
             printMemStats "Before Python Finalize" memBefore,
             printMemStats "After Python Finalize" memAfter,
             .info .debug "Finalize" "Python interpreter finalized successfully" []] }

/-! ## Buffer-accounting predicates -/

/-- Whether an event is a host-side request-buffer allocation (`C.CString`). -/
def isAllocHost : BoundaryEvent → Bool
  | .allocHostBuffer _ => true
  | _ => false

/-- Whether an event frees the host-allocated request buffer. -/
def isFreeHost : BoundaryEvent → Bool
  | .freeHostBuffer => true
  | _ => false

/-- Whether an event receives ownership of a foreign-allocated result buffer. -/
def isRecvForeign : BoundaryEvent → Bool
  | .recvForeignBuffer _ => true
  | _ => false

/-- Whether an event frees a foreign-allocated result buffer. -/
def isFreeForeign : BoundaryEvent → Bool
  | .freeForeignBuffer => true
  | _ => false

/-- Whether an event is the foreign render call. -/
def isRenderCall : BoundaryEvent → Bool
  | .callRenderJinjaTemplate => true
  | _ => false

/-- Buffer hygiene of an event trace: every buffer handed to or received
from the boundary is released exactly once (counts match, and at most
one buffer of each ownership family exists per call). -/
def bufferBalanced (evs : List BoundaryEvent) : Prop :=
  evs.countP (fun e => isAllocHost e) = evs.countP (fun e => isFreeHost e) ∧
  evs.countP (fun e => isRecvForeign e) = evs.countP (fun e => isFreeForeign e) ∧
  evs.countP (fun e => isAllocHost e) ≤ 1 ∧
  evs.countP (fun e => isRecvForeign e) ≤ 1

/-! ## Concrete fixtures used by witnesses and counterexamples -/

/-- A memory snapshot. -/
def exMem : MemStats := ⟨0, 0, 0, 0⟩

/-- A well-formed render request with one user message. -/
def exReq : RenderJinjaTemplateRequest :=
  { zeroRenderRequest with conversations := some [⟨"user", "hi"⟩] }

/-- A render request that asks for the assistant-token mask. -/
def exMaskReq : RenderJinjaTemplateRequest :=
  { zeroRenderRequest with
    conversations := some [⟨"user", "hi"⟩], returnAssistantTokensMask := true }

/-- A well-formed foreign render result. -/
def exOkBytes : List Nat :=
  utf8Bytes "\x7b\"rendered_chats\":[\"HI\"],\"generation_indices\":[]\x7d"

/-- A foreign runtime that renders successfully. -/
def exRtOk : ForeignRuntime := ⟨fun _ => some exOkBytes, fun _ => none, none, 0⟩

/-- A foreign runtime whose every entry point returns the NULL sentinel. -/
def exRtNull : ForeignRuntime := ⟨fun _ => none, fun _ => none, none, 0⟩

/-- A foreign runtime whose module-init entry point reports status 1. -/
def exRtInitFail : ForeignRuntime := ⟨fun _ => none, fun _ => none, none, 1⟩

/-- A foreign runtime returning the 1-byte malformed result `x`. -/
def exRtBad1 : ForeignRuntime := ⟨fun _ => some [0x78], fun _ => none, none, 0⟩

/-- A foreign runtime returning the 2-byte malformed result `xy`. -/
def exRtBad2 : ForeignRuntime := ⟨fun _ => some [0x78, 0x79], fun _ => none, none, 0⟩

/-- A foreign result with two rendered chats but only one
generation-index group. -/
def exMismatchBytes : List Nat :=
  utf8Bytes "\x7b\"rendered_chats\":[\"a\",\"b\"],\"generation_indices\":[[[0,1]]]\x7d"

/-- A foreign runtime returning `exMismatchBytes`. -/
def exRtMismatch : ForeignRuntime := ⟨fun _ => some exMismatchBytes, fun _ => none, none, 0⟩

/-- A foreign result without a `generation_indices` member. -/
def exMissingBytes : List Nat := utf8Bytes "\x7b\"rendered_chats\":[\"a\"]\x7d"

/-- A foreign runtime returning `exMissingBytes`. -/
def exRtMissing : ForeignRuntime := ⟨fun _ => some exMissingBytes, fun _ => none, none, 0⟩

/-- A render request whose `Tools` slice is allocated but empty
(`some []` = a non-nil zero-length Go slice). -/
def exEmptyToolsReq : RenderJinjaTemplateRequest :=
  { zeroRenderRequest with tools := some [] }

/-- A fetch request carrying the secret token of the spec's test. -/
def exFetchReq : FetchChatTemplateRequest := ⟨"m", "", none, "", "secret123", false⟩

/-- A render result embedding a single raw byte `b` inside the
`rendered_chats` string literal. -/
def c8Payload (b : Nat) : List Nat :=
  utf8Bytes "\x7b\"rendered_chats\":[\"" ++ [b] ++
    utf8Bytes "\"],\"generation_indices\":[]\x7d"

/-- A foreign runtime returning `c8Payload 0xFF` (ill-formed UTF-8). -/
def exRtUtf8 : ForeignRuntime := ⟨fun _ => some (c8Payload 0xFF), fun _ => none, none, 0⟩

/-! ## Helper lemmas -/

/-- Decoding the marshal image of a chat message restores it. -/
theorem decodeChatMessage_marshal (m : ChatMessage) :
    decodeChatMessage (marshalChatMessage m) = .ok m := rfl

/-- Decoding a marshaled message list restores it. -/
theorem exceptMapList_decodeChatMessage (ms : List ChatMessage) :
    exceptMapList decodeChatMessage (ms.map marshalChatMessage) = .ok ms := by
  induction ms with
  | nil => rfl
  | cons m ms ih =>
    simp [List.map_cons, exceptMapList, decodeChatMessage_marshal, ih, Except.map]

/-- Decoding a list of opaque values is the identity. -/
theorem exceptMapList_opaque (xs : List Json) :
    exceptMapList decodeOpaque xs = .ok xs := by
  induction xs with
  | nil => rfl
  | cons x xs ih => simp [exceptMapList, decodeOpaque, ih, Except.map]

/-- A non-`none` Go error from `RenderChatTemplate` is always paired
with a `nil` response: no partial result ever escapes. -/
theorem render_error_no_response (w : ChatTemplatingProcessor) (rt : ForeignRuntime)
    (m1 m2 : MemStats) (req : Option RenderJinjaTemplateRequest) :
    ((RenderChatTemplate w rt m1 m2 req).err).isSome →
    (RenderChatTemplate w rt m1 m2 req).response = none := by
  unfold RenderChatTemplate
  cases req with
  | none => simp
  | some r =>
    dsimp only
    split
    · simp
    · split
      · simp
      · simp

/-! ## Claims -/

/-- Claim C1, counterexample.  The claim says a call made before
`Initialize` (or after `Finalize`) returns `NotInitialized` and performs
zero boundary calls.  `ChatTemplatingProcessor` is an empty struct and
`RenderChatTemplate` consults no lifecycle state whatsoever, so this very
call *is* a call made before `Initialize`: it performs one foreign render
call (not zero) and succeeds (no `NotInitialized` error — the package
never constructs such an error). -/
theorem c1_lifecycle_guard_counterexample :
    (RenderChatTemplate ⟨⟩ exRtOk exMem exMem (some exReq)).events.countP
        (fun e => isRenderCall e) = 1 ∧
    (RenderChatTemplate ⟨⟩ exRtOk exMem exMem (some exReq)).err = none ∧
    (RenderChatTemplate ⟨⟩ exRtOk exMem exMem (some exReq)).response =
      some ⟨some ["HI"], some []⟩ :=
  ⟨by decide, by decide, by decide⟩

/-- Claim C1 (amended): `RenderChatTemplate` performs no lifecycle
check at all.  For every non-nil request — whether or not `Initialize`
was ever called, and independent of any lifecycle history, since the
processor carries no state — it crosses the boundary exactly once, and
its error (if any) is the foreign-call failure or a decode failure,
never a `NotInitialized` error (no such error exists in the package). -/
theorem c1_render_has_no_lifecycle_guard (w : ChatTemplatingProcessor)
    (rt : ForeignRuntime) (m1 m2 : MemStats) (r : RenderJinjaTemplateRequest) :
    (RenderChatTemplate w rt m1 m2 (some r)).events.countP
        (fun e => isRenderCall e) = 1 ∧
    ((RenderChatTemplate w rt m1 m2 (some r)).err = none ∨
     (RenderChatTemplate w rt m1 m2 (some r)).err = some .renderForeignFailed ∨
     ∃ c, (RenderChatTemplate w rt m1 m2 (some r)).err =
        some (.unmarshalResponseFailed c)) := by
  unfold RenderChatTemplate
  dsimp only
  split
  · simp [isRenderCall]
  · split <;> simp [isRenderCall]

/-- Claim C2: for each of `RenderChatTemplate`, `FetchChatTemplate` and
`ClearCaches`, on every exit path (success, foreign NULL, decode
failure, and the nil-request early return), the host-allocated request
buffer and the received foreign result buffer are each released exactly
once before the call returns: allocations and frees balance within the
call's own event trace, with at most one buffer per ownership family. -/
theorem c2_buffer_released_exactly_once (w : ChatTemplatingProcessor)
    (rt : ForeignRuntime) (m1 m2 : MemStats)
    (req : Option RenderJinjaTemplateRequest) (freq : FetchChatTemplateRequest) :
    bufferBalanced (RenderChatTemplate w rt m1 m2 req).events ∧
    bufferBalanced (FetchChatTemplate w rt m1 m2 freq).events ∧
    bufferBalanced (ClearCaches rt m1 m2).events := by
  refine ⟨?_, ?_, ?_⟩
  · unfold RenderChatTemplate
    cases req with
    | none => simp [bufferBalanced]
    | some r =>
      dsimp only
      split
      · simp [bufferBalanced, isAllocHost, isFreeHost, isRecvForeign, isFreeForeign]
      · split <;>
          simp [bufferBalanced, isAllocHost, isFreeHost, isRecvForeign, isFreeForeign]
  · unfold FetchChatTemplate
    dsimp only
    split
    · simp [bufferBalanced, isAllocHost, isFreeHost, isRecvForeign, isFreeForeign]
    · split <;>
        simp [bufferBalanced, isAllocHost, isFreeHost, isRecvForeign, isFreeForeign]
  · unfold ClearCaches
    split <;>
      simp [bufferBalanced, isAllocHost, isFreeHost, isRecvForeign, isFreeForeign]

/-- Claim C3: when the foreign render entry point returns the NULL
sentinel, `RenderChatTemplate` returns the foreign-call-failed error and
a nil response; and in general (any request, any runtime) an error
result is never accompanied by a response value. -/
theorem c3_null_foreign_result_yields_foreign_call_failed
    (w : ChatTemplatingProcessor) (rt : ForeignRuntime) (m1 m2 : MemStats)
    (r : RenderJinjaTemplateRequest)
    (h : rt.renderResult (serializeJson (marshalRenderRequest r)) = none) :
    (RenderChatTemplate w rt m1 m2 (some r)).err = some .renderForeignFailed ∧
    (RenderChatTemplate w rt m1 m2 (some r)).response = none ∧
    ∀ (req' : Option RenderJinjaTemplateRequest) (rt' : ForeignRuntime)
      (m1' m2' : MemStats),
      ((RenderChatTemplate w rt' m1' m2' req').err).isSome →
      (RenderChatTemplate w rt' m1' m2' req').response = none := by
  refine ⟨?_, ?_, fun req' rt' m1' m2' => render_error_no_response w rt' m1' m2' req'⟩
  · unfold RenderChatTemplate
    dsimp only
    rw [h]
  · unfold RenderChatTemplate
    dsimp only
    rw [h]

/-- Claim C3, witness: a runtime whose render entry point always
returns NULL produces exactly the foreign-call-failed error and no
response. -/
theorem c3_witness :
    (RenderChatTemplate ⟨⟩ exRtNull exMem exMem (some exReq)).err =
      some .renderForeignFailed ∧
    (RenderChatTemplate ⟨⟩ exRtNull exMem exMem (some exReq)).response = none :=
  ⟨(c3_null_foreign_result_yields_foreign_call_failed ⟨⟩ exRtNull exMem exMem exReq rfl).1,
   (c3_null_foreign_result_yields_foreign_call_failed ⟨⟩ exRtNull exMem exMem exReq rfl).2.1⟩

/-- Claim C4, counterexample.  `decode(encode(request))` is *not* the
identity on every request: a present-but-empty `Tools` slice (`some []`,
a non-nil zero-length Go slice) is dropped by `omitempty` during
marshaling and decodes back to a nil slice (`none`), so `DeepCopy`
returns a value that is not field-for-field equal to the original. -/
theorem c4_roundtrip_counterexample :
    DeepCopy exEmptyToolsReq = .ok zeroRenderRequest ∧
    exEmptyToolsReq.tools = some [] ∧
    zeroRenderRequest.tools = none ∧
    DeepCopy exEmptyToolsReq ≠ .ok exEmptyToolsReq := by
  refine ⟨rfl, rfl, rfl, ?_⟩
  intro h
  rw [show DeepCopy exEmptyToolsReq = .ok zeroRenderRequest from rfl] at h
  injection h with h2
  exact Option.noConfusion (congrArg RenderJinjaTemplateRequest.tools h2)

set_option maxHeartbeats 2000000 in
/-- Claim C4 (amended): for every request whose optional collection
fields are not present-but-empty (i.e. `Tools`, `Documents` and
`ChatTemplateKWArgs` are each either nil or non-empty — the only shapes
`omitempty` round-trips), decoding the encoding restores the request
field-for-field, and `DeepCopy` returns exactly the original value.
(`DeepCopy` rebuilds its result from the serialized bytes alone, so the
copy shares no Go backing storage with the original by construction;
storage aliasing itself is outside this functional model.) -/
theorem c4_roundtrip_amended (r : RenderJinjaTemplateRequest)
    (ht : r.tools ≠ some []) (hd : r.documents ≠ some [])
    (hk : r.chatTemplateKWArgs ≠ some []) :
    DeepCopy r = .ok r := by
  obtain ⟨conv, tools, docs, ct, mask, cont, gen, kwargs⟩ := r
  rcases tools with _ | (_ | ⟨t, ts⟩) <;>
  rcases docs with _ | (_ | ⟨d, ds⟩) <;>
  rcases kwargs with _ | (_ | ⟨kv, kvs⟩) <;>
  first
  | exact absurd rfl ht
  | exact absurd rfl hd
  | exact absurd rfl hk
  | (rcases conv with _ | ms <;> cases mask <;> cases cont <;> cases gen <;>
     by_cases hct : ct = "" <;>
     simp [hct, DeepCopy, marshalRenderRequest, unmarshalRenderRequest,
           applyRenderRequestField, decodeGoSlice, exceptMapList_decodeChatMessage,
           exceptMapList_opaque, decodeGoString, decodeGoBool, decodeGoKWArgs,
           zeroRenderRequest, Except.map, Bind.bind, Except.bind, Pure.pure, Except.pure])

/-- Claim C4, witness: a request with nil and non-empty optional
collections round-trips to itself. -/
theorem c4_witness :
    DeepCopy
      { conversations := some [⟨"user", "a"⟩],
        tools := some [Json.str "t"], documents := none, chatTemplate := "tpl",
        returnAssistantTokensMask := true, continueFinalMessage := false,
        addGenerationPrompt := true,
        chatTemplateKWArgs := some [("k", Json.str "v")] } =
    .ok
      { conversations := some [⟨"user", "a"⟩],
        tools := some [Json.str "t"], documents := none, chatTemplate := "tpl",
        returnAssistantTokensMask := true, continueFinalMessage := false,
        addGenerationPrompt := true,
        chatTemplateKWArgs := some [("k", Json.str "v")] } :=
  c4_roundtrip_amended _
    (fun h => by injection h with h2; exact List.noConfusion h2)
    (fun h => Option.noConfusion h)
    (fun h => by injection h with h2; exact List.noConfusion h2)

/-- Claim C5, counterexample.  The claim says the decoding error's value
includes the byte length of the result received.  Two malformed foreign
results of different lengths (`x`, 1 byte, and `xy`, 2 bytes) produce
*identical* error values — Go's scanner stops at the first offending
byte — so the error value cannot include the byte length. -/
theorem c5_error_length_counterexample :
    (RenderChatTemplate ⟨⟩ exRtBad1 exMem exMem (some exReq)).err =
      (RenderChatTemplate ⟨⟩ exRtBad2 exMem exMem (some exReq)).err ∧
    ((RenderChatTemplate ⟨⟩ exRtBad1 exMem exMem (some exReq)).err).isSome = true ∧
    ([0x78] : List Nat).length ≠ ([0x78, 0x79] : List Nat).length := by
  decide

/-- Claim C5 (amended): when a non-NULL foreign result fails to parse,
`RenderChatTemplate` returns a `DecodingError` wrapping the parse
failure and a nil response; the byte length received is recorded in the
`Received JSON from Python` trace-log entry, not in the error value. -/
theorem c5_decoding_error_amended (w : ChatTemplatingProcessor)
    (rt : ForeignRuntime) (m1 m2 : MemStats) (r : RenderJinjaTemplateRequest)
    (buf : List Nat) (e : String)
    (hb : rt.renderResult (serializeJson (marshalRenderRequest r)) = some buf)
    (hd : decodeRenderResponseBytes (goStringBytes buf) = .error e) :
    (RenderChatTemplate w rt m1 m2 (some r)).err =
      some (.unmarshalResponseFailed e) ∧
    (RenderChatTemplate w rt m1 m2 (some r)).response = none ∧
    LogEntry.info .debug "RenderChatTemplate" "Received JSON from Python"
        [("length", (goStringBytes buf).length)] ∈
      (RenderChatTemplate w rt m1 m2 (some r)).logs := by
  unfold RenderChatTemplate
  dsimp only
  rw [hb]
  dsimp only
  rw [hd]
  refine ⟨rfl, rfl, ?_⟩
  simp

/-- Claim C5, witness: the malformed 1-byte result `x` yields the
decoding error wrapping Go's scanner message, a nil response, and a
length-1 trace-log entry. -/
theorem c5_witness :
    (RenderChatTemplate ⟨⟩ exRtBad1 exMem exMem (some exReq)).err =
      some (.unmarshalResponseFailed
        "invalid character 'x' looking for beginning of value") ∧
    (RenderChatTemplate ⟨⟩ exRtBad1 exMem exMem (some exReq)).response = none ∧
    LogEntry.info .debug "RenderChatTemplate" "Received JSON from Python"
        [("length", (goStringBytes [0x78]).length)] ∈
      (RenderChatTemplate ⟨⟩ exRtBad1 exMem exMem (some exReq)).logs :=
  c5_decoding_error_amended ⟨⟩ exRtBad1 exMem exMem exReq [0x78]
    "invalid character 'x' looking for beginning of value" rfl rfl

/-- Claim C6: if the module-init entry point reports a non-zero status,
`Initialize` returns the module-init error, and its boundary trace shows
the interpreter-start entry point was invoked while the interpreter-stop
entry point was not — the interpreter is left running and the caller
must still call `Finalize`. -/
theorem c6_module_init_failure_leaves_interpreter_running
    (w : ChatTemplatingProcessor) (rt : ForeignRuntime) (m1 m2 : MemStats)
    (h : rt.moduleInitStatus ≠ 0) :
    ( Initialize w rt m1 m2).err = some .moduleInitFailed ∧
    ( Initialize w rt m1 m2).events = [.callInitializeGo, .callInitChatTemplateModule] ∧
    BoundaryEvent.callInitializeGo ∈ ( Initialize w rt m1 m2).events ∧
    BoundaryEvent.callFinalizeGo ∉ ( Initialize w rt m1 m2).events := by
  simp [ Initialize, h]

/-- Claim C6, witness: module-init status 1 produces the failure with
the interpreter started and never stopped. -/
theorem c6_witness :
    ( Initialize ⟨⟩ exRtInitFail exMem exMem).err = some .moduleInitFailed ∧
    ( Initialize ⟨⟩ exRtInitFail exMem exMem).events =
      [.callInitializeGo, .callInitChatTemplateModule] ∧
    BoundaryEvent.callInitializeGo ∈ ( Initialize ⟨⟩ exRtInitFail exMem exMem).events ∧
    BoundaryEvent.callFinalizeGo ∉ ( Initialize ⟨⟩ exRtInitFail exMem exMem).events :=
  c6_module_init_failure_leaves_interpreter_running ⟨⟩ exRtInitFail exMem exMem
    (by decide)

/-- Claim C7: a nil request is rejected with the invalid-input error
(`received nil request`) before anything else happens: the boundary
trace is empty — no serialization reached the boundary, no buffer was
allocated, no foreign call was made — and no response is returned. -/
theorem c7_nil_request_rejected_before_boundary (w : ChatTemplatingProcessor)
    (rt : ForeignRuntime) (m1 m2 : MemStats) :
    (RenderChatTemplate w rt m1 m2 none).err = some .nilRequest ∧
    (RenderChatTemplate w rt m1 m2 none).response = none ∧
    (RenderChatTemplate w rt m1 m2 none).events = [] :=
  ⟨rfl, rfl, rfl⟩

/-- Claim C8, counterexample.  The claim says a non-UTF-8 foreign result
is rejected with a `DecodingError`.  In fact `RenderChatTemplate`
performs no encoding validation: a result whose `rendered_chats` string
contains the invalid byte 0xFF is *accepted* — the call succeeds and
returns the string with the invalid byte replaced by U+FFFD. -/
theorem c8_utf8_counterexample :
    validUtf8Bytes (c8Payload 0xFF) = false ∧
    (RenderChatTemplate ⟨⟩ exRtUtf8 exMem exMem (some exReq)).err = none ∧
    (RenderChatTemplate ⟨⟩ exRtUtf8 exMem exMem (some exReq)).response =
      some ⟨some [String.mk [Char.ofNat 0xFFFD]], some []⟩ := by
  refine ⟨by decide, by decide, by decide⟩

/-- Claim C8 (amended): no UTF-8 validation happens on the foreign
result.  For *every* byte `b` in `0x80 … 0xFF`, a result whose string
literal consists of the single raw byte `b` is ill-formed UTF-8, yet it
parses successfully: the call returns no error and the byte is silently
replaced by U+FFFD in the decoded string.  `DecodingError` arises only
from JSON syntax/shape failures, never from encoding invalidity. -/
theorem c8_no_utf8_validation_amended (w : ChatTemplatingProcessor)
    (rt : ForeignRuntime) (m1 m2 : MemStats) (r : RenderJinjaTemplateRequest)
    (b : Nat) (h1 : 0x80 ≤ b) (h2 : b ≤ 0xFF)
    (hrt : rt.renderResult (serializeJson (marshalRenderRequest r)) =
      some (c8Payload b)) :
    validUtf8Bytes (c8Payload b) = false ∧
    (RenderChatTemplate w rt m1 m2 (some r)).err = none ∧
    (RenderChatTemplate w rt m1 m2 (some r)).response =
      some ⟨some [String.mk [Char.ofNat 0xFFFD]], some []⟩ := by
  have hdec : decodeRenderResponseBytes (goStringBytes (c8Payload b)) =
      .ok ⟨some [String.mk [Char.ofNat 0xFFFD]], some []⟩ := by
    interval_cases b <;> rfl
  have hv : validUtf8Bytes (c8Payload b) = false := by
    interval_cases b <;> decide
  refine ⟨hv, ?_, ?_⟩ <;>
    (unfold RenderChatTemplate
     dsimp only
     rw [hrt]
     dsimp only
     rw [hdec])

/-- Claim C8, witness: the invalid byte 0xFF inside the result's string
literal is accepted and decoded as U+FFFD. -/
theorem c8_witness :
    validUtf8Bytes (c8Payload 0xFF) = false ∧
    (RenderChatTemplate ⟨⟩ exRtUtf8 exMem exMem (some exReq)).err = none ∧
    (RenderChatTemplate ⟨⟩ exRtUtf8 exMem exMem (some exReq)).response =
      some ⟨some [String.mk [Char.ofNat 0xFFFD]], some []⟩ :=
  c8_no_utf8_validation_amended ⟨⟩ exRtUtf8 exMem exMem exReq 0xFF
    (by decide) (by decide) rfl

/-- Claim C9: `FetchChatTemplate`'s diagnostic output never reveals the
`Token` field's contents.  Stated as noninterference: for two requests
that differ only in the token, against any foreign runtime whose reply
does not depend on the request (the component under test is the host
side, not the collaborator), the full ordered log output of the two runs
is identical whenever the serialized requests have the same byte length
— the only token-dependent datum any log record carries is that length
(the `bytes` field of the allocation entry), never the token itself. -/
theorem c9_token_noninterference (w : ChatTemplatingProcessor)
    (rt : ForeignRuntime) (m1 m2 : MemStats) (r : FetchChatTemplateRequest)
    (t : String)
    (hrt : ∀ a b : String, rt.fetchResult a = rt.fetchResult b)
    (hlen : utf8Len (serializeJson (marshalFetchRequest { r with token := t })) =
            utf8Len (serializeJson (marshalFetchRequest r))) :
    (FetchChatTemplate w rt m1 m2 { r with token := t }).logs =
      (FetchChatTemplate w rt m1 m2 r).logs := by
  unfold FetchChatTemplate
  dsimp only
  rw [hlen, hrt (serializeJson (marshalFetchRequest { r with token := t }))
        (serializeJson (marshalFetchRequest r))]

/-- Claim C9, witness: runs with `Token = "secret123"` and with an
equal-length innocuous token produce identical log output. -/
theorem c9_witness :
    (FetchChatTemplate ⟨⟩ exRtNull exMem exMem
        { exFetchReq with token := "AAAABBBBC" }).logs =
      (FetchChatTemplate ⟨⟩ exRtNull exMem exMem exFetchReq).logs :=
  c9_token_noninterference ⟨⟩ exRtNull exMem exMem exFetchReq "AAAABBBBC"
    (fun _ _ => rfl) (by decide)

/-- Claim C10: whatever response value the foreign result bytes decode
to is returned verbatim, with no validation of its contents: the
successful outcome is exactly the decoded value, for every request
(including one that set the assistant-token-mask flag) and every
decodable result (including one whose `generation_indices` length
differs from `rendered_chats`, and one missing `generation_indices`
entirely, which decodes to a nil slice). -/
theorem c10_response_returned_verbatim (w : ChatTemplatingProcessor)
    (rt : ForeignRuntime) (m1 m2 : MemStats) (r : RenderJinjaTemplateRequest)
    (buf : List Nat) (resp : RenderJinjaTemplateResponse)
    (hb : rt.renderResult (serializeJson (marshalRenderRequest r)) = some buf)
    (hd : decodeRenderResponseBytes (goStringBytes buf) = .ok resp) :
    (RenderChatTemplate w rt m1 m2 (some r)).response = some resp ∧
    (RenderChatTemplate w rt m1 m2 (some r)).err = none := by
  unfold RenderChatTemplate
  dsimp only
  rw [hb]
  dsimp only
  rw [hd]
  exact ⟨rfl, rfl⟩

/-- Claim C10, witness: with the assistant-token-mask flag set, a result
with two rendered chats but one generation-index group is accepted
as-is, and a result missing `generation_indices` yields a nil slice. -/
theorem c10_witness :
    (RenderChatTemplate ⟨⟩ exRtMismatch exMem exMem (some exMaskReq)).response =
      some ⟨some ["a", "b"], some [[[0, 1]]]⟩ ∧
    exMaskReq.returnAssistantTokensMask = true ∧
    (RenderChatTemplate ⟨⟩ exRtMissing exMem exMem (some exMaskReq)).response =
      some ⟨some ["a"], none⟩ :=
  ⟨(c10_response_returned_verbatim ⟨⟩ exRtMismatch exMem exMem exMaskReq
      exMismatchBytes ⟨some ["a", "b"], some [[[0, 1]]]⟩ rfl (by decide)).1,
   rfl,
   (c10_response_returned_verbatim ⟨⟩ exRtMissing exMem exMem exMaskReq
      exMissingBytes ⟨some ["a"], none⟩ rfl (by decide)).1⟩

end Preprocessing
